import Mathlib

/-!
Verification of EventDance core behaviors against its C sources.

Each definition below is a shallow embedding of the function of the same name
in the EventDance sources (src/evd).  Machine integers (gsize, gulong, guint)
are modelled by Nat, glong fields of GTimeVal by Int; the values involved in
the claims stay far below every relevant word size, so no wrap-around is
modelled.  Hash tables are modelled as association lists with unique keys
(lookup finds the first match, removal drops every entry with the key).
-/

namespace EventDance

/-! ## evd-stream.c : throttling (GTimeVal, evd_stream_request) -/

/-- Model of GLib GTimeVal: seconds and microseconds, both glong. -/
structure GTimeVal where
  sec : Int
  usec : Int
deriving DecidableEq, Repr

/-- src/evd/evd-stream.c g_timeval_get_diff_micro: ABS(dsec)*G_USEC_PER_SEC +
ABS(dusec)/1000 (the source divides the microsecond part by 1000). -/
def g_timeval_get_diff_micro (time1 time2 : GTimeVal) : Nat :=
  (time2.sec - time1.sec).natAbs * 1000000 + (time2.usec - time1.usec).natAbs / 1000

/-- The private state of an EvdStream (src/evd/evd-stream.c struct
EvdStreamPrivate), the closure and mutex omitted. -/
structure EvdStreamState where
  bandwidth_in : Nat
  bandwidth_out : Nat
  latency_in : Nat
  latency_out : Nat
  current_time : GTimeVal
  bytes_in : Nat
  bytes_out : Nat
  last_in : GTimeVal
  last_out : GTimeVal
  total_in : Nat
  total_out : Nat
deriving DecidableEq, Repr

/-- src/evd/evd-stream.c evd_stream_update_current_time: when the wall-clock
second changed, both per-second byte counters reset; the stored current time
always becomes the new time. -/
def evd_stream_update_current_time (s : EvdStreamState) (time_val : GTimeVal) :
    EvdStreamState :=
  let s1 := if time_val.sec ≠ s.current_time.sec then
              { s with bytes_in := 0, bytes_out := 0 }
            else s
  { s1 with current_time := time_val }

/-- src/evd/evd-stream.c evd_stream_request, lines 309-355.  Returns
(actual_size, wait).  The two nested latency ifs of the source are written as
one conjunction; elapsed is hoisted out of the branch (it is side-effect
free).  MAX((gssize)(bandwidth - bytes), 0) is Int subtraction clamped by
toNat: exact for values below 2^63.  The source writes the wait hint as
(guint)((1000001 - current_time.tv_usec) / 1000) + 1 with tv_usec in
[0, 1000000), where C integer division agrees with Nat division below. -/
def evd_stream_request (bandwidth latency bytes : Nat) (current_time last : GTimeVal)
    (size : Nat) : Nat × Nat :=
  let elapsed := g_timeval_get_diff_micro current_time last
  let p : Nat × Nat :=
    if 0 < latency ∧ elapsed < latency then
      (0, (latency - elapsed) / 1000)
    else (size, 0)
  if 0 < bandwidth ∧ 0 < p.1 then
    let a := min (((bandwidth : Int) - (bytes : Int)).toNat) size
    (a, if a < size then (1000001 - current_time.usec).toNat / 1000 + 1 else p.2)
  else p

/-- src/evd/evd-stream.c evd_stream_request_read: refresh the clock, then run
the request against the inbound bandwidth, latency and byte counter. -/
def evd_stream_request_read (s : EvdStreamState) (now : GTimeVal) (size : Nat) :
    (Nat × Nat) × EvdStreamState :=
  let s1 := evd_stream_update_current_time s now
  (evd_stream_request s1.bandwidth_in s1.latency_in s1.bytes_in s1.current_time
     s1.last_in size, s1)

/-- src/evd/evd-stream.c evd_stream_report_read: refresh the clock, add the
size to the per-second and total counters, stamp last_in. -/
def evd_stream_report_read (s : EvdStreamState) (now : GTimeVal) (size : Nat) :
    EvdStreamState :=
  let s1 := evd_stream_update_current_time s now
  { s1 with bytes_in := s1.bytes_in + size,
            total_in := s1.total_in + size,
            last_in := s1.current_time }

/-! ## JSON values (json-glib nodes, as used by evd-jsonrpc.c) -/

/-- A JSON node.  jnull models a JSON_NODE_NULL node. -/
inductive JVal where
  | jnull : JVal
  | jbool : Bool → JVal
  | jstr : String → JVal
  | jnum : Int → JVal
  | jarr : List JVal → JVal
  | jobj : List (String × JVal) → JVal
deriving Repr

/-- json_node_is_null. -/
def json_node_is_null : JVal → Bool
  | .jnull => true
  | _ => false

/-- json_node_get_string: NULL (none) unless the node holds a string value. -/
def json_node_get_string : JVal → Option String
  | .jstr s => some s
  | _ => none

/-- json_object_get_member over an object modelled as an association list. -/
def json_object_get_member (obj : List (String × JVal)) (name : String) :
    Option JVal :=
  (obj.find? (fun p => p.1 == name)).map Prod.snd

/-- json_object_has_member. -/
def json_object_has_member (obj : List (String × JVal)) (name : String) : Bool :=
  (json_object_get_member obj name).isSome

/-! ## evd-jsonrpc.c : the JSON-RPC engine -/

/-- The payload a completed call carries (struct MethodResponse in
src/evd/evd-jsonrpc.c): at most one of result and error is filled by
evd_jsonrpc_on_method_result. -/
structure MethodResponse where
  result : Option JVal
  error : Option JVal
deriving Repr

/-- Model of the GSimpleAsyncResult held in the outbound invocation map:
whether g_simple_async_result_set_error ran, the op-res payload, and whether
g_simple_async_result_complete ran (only a completed result ever invokes the
caller's callback). -/
structure GSimpleAsyncResult where
  error_set : Bool
  op_res : Option MethodResponse
  completed : Bool
deriving Repr

/-- Outcome of evd_jsonrpc_on_method_result. -/
inductive RpcResultOutcome where
  | invalid_response : RpcResultOutcome
  | protocol_error : GSimpleAsyncResult → RpcResultOutcome
  | completed_response : GSimpleAsyncResult → RpcResultOutcome
deriving Repr

/-- True exactly on the protocol-error outcome (the both-non-null branch of
evd_jsonrpc_on_method_result, which sets the error without completing). -/
def rpc_outcome_is_protocol_error : RpcResultOutcome → Bool
  | .protocol_error _ => true
  | _ => false

/-- src/evd/evd-jsonrpc.c evd_jsonrpc_on_method_result, lines 321-375.
Callers (evd_jsonrpc_on_json_packet) only dispatch here when the message owns
both a result and an error member, so the getD defaults are never reached on
routed messages; a non-string id never matches any stored key, hence the
none branch of get_string folds into the unexpected-response error. -/
def evd_jsonrpc_on_method_result
    (invocations_out : List (String × GSimpleAsyncResult))
    (msg : List (String × JVal)) :
    RpcResultOutcome × List (String × GSimpleAsyncResult) :=
  match (json_object_get_member msg "id").bind json_node_get_string with
  | none => (.invalid_response, invocations_out)
  | some id =>
    match invocations_out.find? (fun p => p.1 == id) with
    | none => (.invalid_response, invocations_out)
    | some pr =>
      let invocations_out2 := invocations_out.filter (fun p => p.1 != id)
      let result_node := (json_object_get_member msg "result").getD .jnull
      let error_node := (json_object_get_member msg "error").getD .jnull
      if !(json_node_is_null result_node || json_node_is_null error_node) then
        (.protocol_error { pr.2 with error_set := true }, invocations_out2)
      else if !(json_node_is_null result_node) then
        (.completed_response
           { pr.2 with op_res := some { result := some result_node, error := none },
                       completed := true }, invocations_out2)
      else
        (.completed_response
           { pr.2 with op_res := some { result := none, error := some error_node },
                       completed := true }, invocations_out2)

/-- The inbound half of EvdJsonrpcPrivate: the invocation counter and the
invocations_in table mapping numeric handles to preserved id nodes. -/
structure JsonrpcInState where
  invocation_counter : Nat
  invocations_in : List (Nat × JVal)
deriving Repr

/-- Outcome of evd_jsonrpc_on_method_called. -/
inductive MethodCallOutcome where
  | invalid_method : MethodCallOutcome
  | invalid_params : MethodCallOutcome
  | notification_ok : MethodCallOutcome
  | dispatched : Nat → MethodCallOutcome
deriving DecidableEq, Repr

/-- src/evd/evd-jsonrpc.c evd_jsonrpc_on_method_called, lines 244-305.  The
third component of the result lists the invocation handles handed to the
method-call callback during the call.  The null-id branch is the literal
TODO branch of the source: it frees the duplicated id node and returns TRUE
without touching the state and without invoking the callback. -/
def evd_jsonrpc_on_method_called (st : JsonrpcInState)
    (msg : List (String × JVal)) (has_method_call_cb : Bool) :
    MethodCallOutcome × JsonrpcInState × List Nat :=
  match (json_object_get_member msg "method").bind json_node_get_string with
  | none => (.invalid_method, st, [])
  | some _ =>
    match json_object_get_member msg "params" with
    | some (.jarr _) =>
      match json_object_get_member msg "id" with
      | some id_node =>
        if json_node_is_null id_node then
          (.notification_ok, st, [])
        else
          let counter := st.invocation_counter + 1
          ((.dispatched counter),
           { invocation_counter := counter,
             invocations_in := st.invocations_in ++ [(counter, id_node)] },
           if has_method_call_cb then [counter] else [])
      | none => (.invalid_method, st, [])
    | _ => (.invalid_params, st, [])

/-- Error kinds surfaced by evd_jsonrpc_respond: no transport associated
(G_IO_ERROR_CLOSED), unknown invocation handle (G_IO_ERROR_INVALID_ARGUMENT),
or whatever error the transport write reported. -/
inductive RespondErrorKind where
  | no_transport : RespondErrorKind
  | invalid_argument : RespondErrorKind
  | write_failed : RespondErrorKind
deriving DecidableEq, Repr

/-- Result of evd_jsonrpc_respond: the returned gboolean, the GError if any,
the state left behind, and the messages handed to
evd_jsonrpc_transport_write during the call. -/
structure RespondResult where
  ok : Bool
  err : Option RespondErrorKind
  state : JsonrpcInState
  writes_attempted : List JVal
deriving Repr

/-- src/evd/evd-jsonrpc.c evd_jsonrpc_build_message, lines 172-242: sets the
id member (null when absent), then either method and params (request) or
error and result (response); an absent params becomes an empty array. -/
def evd_jsonrpc_build_message (request : Bool) (method_name : Option String)
    (id : Option JVal) (params : Option JVal) (err_msg : Option String) : JVal :=
  let id_node := match id with | none => JVal.jnull | some n => n
  let params_node := match params with | none => JVal.jarr [] | some p => p
  if request then
    .jobj [("id", id_node), ("method", .jstr (method_name.getD "")),
           ("params", params_node)]
  else
    let error_node := match err_msg with | none => JVal.jnull | some m => .jstr m
    .jobj [("id", id_node), ("error", error_node), ("result", params_node)]

/-- src/evd/evd-jsonrpc.c evd_jsonrpc_respond, lines 663-707.  The leading
invocation_id > 0 guard is a g_return_val_if_fail: it returns FALSE without
setting a GError.  The transport is available when the per-call context is a
peer or a free-form write callback is installed.  The entry is removed from
invocations_in after building the message and before the transport write;
write_ok says whether evd_jsonrpc_transport_write succeeded. -/
def evd_jsonrpc_respond (st : JsonrpcInState) (invocation_id : Nat)
    (result : Option JVal) (context_is_peer has_write_cb write_ok : Bool) :
    RespondResult :=
  if invocation_id = 0 then
    { ok := false, err := none, state := st, writes_attempted := [] }
  else if ¬(context_is_peer = true) ∧ ¬(has_write_cb = true) then
    { ok := false, err := some .no_transport, state := st, writes_attempted := [] }
  else
    match st.invocations_in.find? (fun p => p.1 == invocation_id) with
    | none =>
      { ok := false, err := some .invalid_argument, state := st,
        writes_attempted := [] }
    | some pr =>
      let msg := evd_jsonrpc_build_message false none (some pr.2) result none
      let st2 : JsonrpcInState :=
        { st with invocations_in :=
            st.invocations_in.filter (fun p => p.1 != invocation_id) }
      if write_ok then
        { ok := true, err := none, state := st2, writes_attempted := [msg] }
      else
        { ok := false, err := some .write_failed, state := st2,
          writes_attempted := [msg] }

/-! ## evd-reproxy-backend.c : the backend bridge pool

Bridges are identified by Nat socket handles.  GQueue push_tail appends at
the list tail, pop_head takes the list head, g_queue_remove drops the first
matching element.  evd_socket_connect_to succeeding is the connect_ok
parameter (on failure the source only logs a warning and the connecting
counter stays untouched).  The two evd_reproxy_client_awaiting consultations
inside bridge_on_connect are distinct parameters because handing a bridge to
the awaiting client can change the answer in between. -/

/-- DEFAULT_MIN_POOL_SIZE from src/evd/evd-reproxy-backend.c. -/
def DEFAULT_MIN_POOL_SIZE : Nat := 1

/-- DEFAULT_MAX_POOL_SIZE from src/evd/evd-reproxy-backend.c. -/
def DEFAULT_MAX_POOL_SIZE : Nat := 5

/-- DEFAULT_BRIDGE_IDLE_TIMEOUT from src/evd/evd-reproxy-backend.c, in
milliseconds (1000 * 60 * 1). -/
def DEFAULT_BRIDGE_IDLE_TIMEOUT : Nat := 1000 * 60 * 1

/-- struct EvdReproxyBackendPrivate. -/
structure EvdReproxyBackendState where
  min_pool_size : Nat
  max_pool_size : Nat
  free_bridges : List Nat
  busy_bridges : List Nat
  nr_bridges_connecting : Nat
  bridge_idle_timeout : Nat
deriving DecidableEq, Repr

/-- evd_reproxy_backend_count_free_bridges. -/
def evd_reproxy_backend_count_free_bridges (s : EvdReproxyBackendState) : Nat :=
  s.free_bridges.length

/-- evd_reproxy_backend_count_all_bridges: free + busy + connecting. -/
def evd_reproxy_backend_count_all_bridges (s : EvdReproxyBackendState) : Nat :=
  s.free_bridges.length + s.busy_bridges.length + s.nr_bridges_connecting

/-- evd_reproxy_backend_connect_bridge: on a successful
evd_socket_connect_to the connecting counter grows; on failure the source
only warns. -/
def evd_reproxy_backend_connect_bridge (s : EvdReproxyBackendState)
    (connect_ok : Bool) : EvdReproxyBackendState :=
  if connect_ok then { s with nr_bridges_connecting := s.nr_bridges_connecting + 1 }
  else s

/-- evd_reproxy_backend_new_bridge, lines 282-315: refuse to spawn once the
pool is at max_pool_size, otherwise create a socket and connect it. -/
def evd_reproxy_backend_new_bridge (s : EvdReproxyBackendState)
    (connect_ok : Bool) : EvdReproxyBackendState :=
  if s.max_pool_size ≤ evd_reproxy_backend_count_all_bridges s then s
  else evd_reproxy_backend_connect_bridge s connect_ok

/-- The initial pool state built by evd_reproxy_backend_init. -/
def evd_reproxy_backend_init_state : EvdReproxyBackendState :=
  { min_pool_size := DEFAULT_MIN_POOL_SIZE,
    max_pool_size := DEFAULT_MAX_POOL_SIZE,
    free_bridges := [], busy_bridges := [], nr_bridges_connecting := 0,
    bridge_idle_timeout := DEFAULT_BRIDGE_IDLE_TIMEOUT }

/-- evd_reproxy_backend_new: fresh private state, then one new_bridge. -/
def evd_reproxy_backend_new (connect_ok : Bool) : EvdReproxyBackendState :=
  evd_reproxy_backend_new_bridge evd_reproxy_backend_init_state connect_ok

/-- evd_reproxy_backend_bridge_on_connect, lines 185-225.  Returns the new
state and the bridge handed to the awaiting client (none when no client
awaits).  client_awaiting is the first evd_reproxy_client_awaiting answer,
client_awaiting_after the one consulted for the trailing growth check. -/
def evd_reproxy_backend_bridge_on_connect (s : EvdReproxyBackendState)
    (socket : Nat) (client_awaiting client_awaiting_after connect_ok : Bool) :
    EvdReproxyBackendState × Option Nat :=
  let s0 := { s with nr_bridges_connecting := s.nr_bridges_connecting - 1 }
  let pr : EvdReproxyBackendState × Option Nat :=
    if client_awaiting then
      match s0.free_bridges with
      | [] =>
        ({ s0 with busy_bridges := s0.busy_bridges ++ [socket] }, some socket)
      | b :: rest =>
        ({ s0 with free_bridges := rest ++ [socket],
                   busy_bridges := s0.busy_bridges ++ [b] }, some b)
    else
      ({ s0 with free_bridges := s0.free_bridges ++ [socket] }, none)
  let s2 :=
    if client_awaiting_after ∨
       evd_reproxy_backend_count_free_bridges pr.1 < pr.1.min_pool_size then
      evd_reproxy_backend_new_bridge pr.1 connect_ok
    else pr.1
  (s2, pr.2)

/-- evd_reproxy_backend_bridge_closed, lines 400-422: drop the bridge from
both queues, then either reconnect the same socket (a client awaits or the
pool fell below min) or free it. -/
def evd_reproxy_backend_bridge_closed (s : EvdReproxyBackendState)
    (bridge : Nat) (client_awaiting connect_ok : Bool) : EvdReproxyBackendState :=
  let s0 := { s with free_bridges := s.free_bridges.erase bridge,
                     busy_bridges := s.busy_bridges.erase bridge }
  if client_awaiting ∨
     evd_reproxy_backend_count_all_bridges s0 < s0.min_pool_size then
    evd_reproxy_backend_connect_bridge s0 connect_ok
  else s0

/-- evd_reproxy_backend_has_free_bridges: TRUE when the free queue is
non-empty; on FALSE it first asks for a new bridge. -/
def evd_reproxy_backend_has_free_bridges (s : EvdReproxyBackendState)
    (connect_ok : Bool) : Bool × EvdReproxyBackendState :=
  if 0 < evd_reproxy_backend_count_free_bridges s then (true, s)
  else (false, evd_reproxy_backend_new_bridge s connect_ok)

/-- evd_reproxy_backend_get_free_bridge: pop the head of the free queue and
push it to the busy tail. -/
def evd_reproxy_backend_get_free_bridge (s : EvdReproxyBackendState) :
    Option Nat × EvdReproxyBackendState :=
  match s.free_bridges with
  | [] => (none, s)
  | b :: rest =>
    (some b, { s with free_bridges := rest,
                      busy_bridges := s.busy_bridges ++ [b] })

/-- evd_reproxy_backend_check_inactive_bridge, lines 227-238: a free bridge
is closed when its inactivity reached the pool idle timeout (the source
compares with >=).  inactive gives each bridge's
evd_reproxy_backend_bridge_get_inactive_time in milliseconds. -/
def evd_reproxy_backend_check_inactive_bridge (idle_timeout : Nat)
    (inactive : Nat → Nat) (bridge : Nat) : Bool :=
  idle_timeout ≤ inactive bridge

/-- evd_reproxy_backend_bridge_on_error, lines 240-260: lower the idle
timeout to the erroring bridge's inactivity, then sweep the free queue;
the second component lists the free bridges the sweep closes (the closes
themselves complete asynchronously, so the queues are untouched here). -/
def evd_reproxy_backend_bridge_on_error (s : EvdReproxyBackendState)
    (inactive : Nat → Nat) (bridge : Nat) :
    EvdReproxyBackendState × List Nat :=
  let elapsed := inactive bridge
  let s1 := { s with bridge_idle_timeout := min s.bridge_idle_timeout elapsed }
  (s1, s1.free_bridges.filter
        (evd_reproxy_backend_check_inactive_bridge s1.bridge_idle_timeout inactive))

/-- evd_reproxy_backend_notify_bridge_activity, lines 440-456: raise the idle
timeout to the observed inactivity, then restamp the bridge's activity
time. -/
def evd_reproxy_backend_notify_bridge_activity (s : EvdReproxyBackendState)
    (inactive : Nat → Nat) (bridge : Nat) : EvdReproxyBackendState :=
  { s with bridge_idle_timeout := max s.bridge_idle_timeout (inactive bridge) }

/-- The pool-sizing invariant of claim C6 over the counters of
src/evd/evd-reproxy-backend.c. -/
def pool_invariant (s : EvdReproxyBackendState) : Prop :=
  evd_reproxy_backend_count_all_bridges s ≤ s.max_pool_size ∧
  (s.min_pool_size ≤ evd_reproxy_backend_count_all_bridges s ∨
   0 < s.nr_bridges_connecting)

/-! ## evd-transport.c / evd-peer : transport send with backlog fallback -/

/-- The backlog-relevant state of an EvdPeer: the ordered frame backlog and
its bound. -/
structure EvdPeerState where
  backlog : List (List Nat)
  backlog_max : Nat
deriving Repr

/-- Modelled from the spec: evd_peer_backlog_push_frame lives in evd-peer.c,
which is not among the sources here; the spec describes a peer's backlog as
an ordered, bounded sequence of frames, so the push appends the frame while
the backlog is below its bound and fails when the backlog is full. -/
def evd_peer_backlog_push_frame (p : EvdPeerState) (frame : List Nat) :
    Option EvdPeerState :=
  if p.backlog.length < p.backlog_max then
    some { p with backlog := p.backlog ++ [frame] }
  else none

/-- src/evd/evd-transport.c evd_transport_send, lines 269-292: try the
transport implementation's immediate send (its error discarded); on failure
fall back to pushing onto the peer backlog; fail only when both failed. -/
def evd_transport_send (delivered_immediately : Bool) (p : EvdPeerState)
    (frame : List Nat) : Bool × EvdPeerState :=
  if delivered_immediately then (true, p)
  else
    match evd_peer_backlog_push_frame p frame with
    | some p2 => (true, p2)
    | none => (false, p)

/-! ## evd-socket.c : condition masks and the connect path

The socket model keeps the fields of struct EvdSocketPrivate the claims
touch: status, the last-observed condition mask (cond), the watched mask
(watched_cond), the deferred-close flag and the three GSource ids.  GSource
registration through evd_timeout_add is modelled by setting the id to 1.
Every evd_socket_watch_condition call is taken to succeed (its failure paths
throw and close, which no claim is about). -/

/-- The EvdSocketState enum of the public header, as used throughout
src/evd/evd-socket.c. -/
inductive EvdSocketStatus where
  | closed : EvdSocketStatus
  | resolving : EvdSocketStatus
  | bound : EvdSocketStatus
  | listening : EvdSocketStatus
  | connecting : EvdSocketStatus
  | connected : EvdSocketStatus
  | tls_handshaking : EvdSocketStatus
  | closing : EvdSocketStatus
deriving DecidableEq, Repr

/-- A GIOCondition bit mask restricted to the four bits evd-socket.c
manipulates. -/
structure GIOCondition where
  g_io_in : Bool
  g_io_out : Bool
  g_io_err : Bool
  g_io_hup : Bool
deriving DecidableEq, Repr

/-- The empty condition mask (the literal 0 of the source). -/
def gio_condition_none : GIOCondition :=
  { g_io_in := false, g_io_out := false, g_io_err := false, g_io_hup := false }

/-- The G_IO_IN | G_IO_OUT mask. -/
def gio_condition_in_out : GIOCondition :=
  { g_io_in := true, g_io_out := true, g_io_err := false, g_io_hup := false }

/-- The claim C1 subset property: the mask holds at most the readable and
writable bits. -/
def gio_subset_read_write (c : GIOCondition) : Prop :=
  c.g_io_err = false ∧ c.g_io_hup = false

/-- The slice of struct EvdSocketPrivate the modelled operations read and
write. -/
structure EvdSocketSim where
  status : EvdSocketStatus
  cond : GIOCondition
  watched_cond : GIOCondition
  delayed_close : Bool
  tls_enabled : Bool
  protocol_is_udp : Bool
  read_src_id : Nat
  write_src_id : Nat
  close_src_id : Nat
  priority : Int
  actual_priority : Int
deriving DecidableEq, Repr

/-- evd_socket_close, lines 1814-1875, reduced to its state effect: already
closed or closing sockets are left alone, otherwise the socket enters
Closing (the finish-close idle source completes the transition later). -/
def evd_socket_close_model (s : EvdSocketSim) : EvdSocketSim :=
  if s.status = .closed ∨ s.status = .closing then s
  else { s with status := .closing }

/-- evd_socket_input_stream_drained, lines 793-821: under deferred close,
schedule the close-in-idle source; otherwise, when the readable bit is not
watched, clear the readable condition flag and re-watch the readable bit. -/
def evd_socket_input_stream_drained (s : EvdSocketSim) : EvdSocketSim :=
  if s.delayed_close then
    if s.close_src_id = 0 then { s with close_src_id := 1 } else s
  else
    if s.watched_cond.g_io_in = false then
      { s with cond := { s.cond with g_io_in := false },
               watched_cond := { s.watched_cond with g_io_in := true } }
    else s

/-- evd_socket_output_stream_filled, lines 823-835: clear the writable
condition flag and re-watch the writable bit. -/
def evd_socket_output_stream_filled (s : EvdSocketSim) : EvdSocketSim :=
  { s with cond := { s.cond with g_io_out := false },
           watched_cond := { s.watched_cond with g_io_out := true } }

/-- The watched_cond &= ~G_IO_OUT of evd_socket_handle_condition line 1390,
performed before the write condition is handled. -/
def evd_socket_unwatch_out (s : EvdSocketSim) : EvdSocketSim :=
  { s with watched_cond := { s.watched_cond with g_io_out := false } }

/-- The watched_cond &= ~G_IO_IN of evd_socket_handle_condition line 1431,
performed before the read condition is handled. -/
def evd_socket_unwatch_in (s : EvdSocketSim) : EvdSocketSim :=
  { s with watched_cond := { s.watched_cond with g_io_in := false } }

/-- The write-condition body of evd_socket_handle_condition, lines
1391-1425, after the unwatch: a connecting socket completes its connect
(restore priority, status Connected; the source sets and clears the writable
flag around the status change, leaving it clear), then the writable flag is
raised and the write condition managed.  The TLS-autostart branch is not
modelled (tls_autostart false). -/
def evd_socket_handle_out_condition (s : EvdSocketSim) : EvdSocketSim :=
  let s1 :=
    if s.status = .connecting then
      { s with actual_priority := s.priority,
               cond := { s.cond with g_io_out := false },
               status := .connected }
    else s
  if s1.cond.g_io_out = false then
    { s1 with cond := { s1.cond with g_io_out := true } }
  else s1

/-- The read-condition body of evd_socket_handle_condition, lines 1432-1449,
after the unwatch: when the readable flag is down and either TLS is active,
no hangup accompanies the edge, or a one-byte read confirms data, the
readable flag is raised and the read condition managed. -/
def evd_socket_handle_in_condition (s : EvdSocketSim)
    (hup_in_condition confirm_read : Bool) : EvdSocketSim :=
  if s.cond.g_io_in = false then
    if s.tls_enabled ∨ hup_in_condition = false ∨ confirm_read then
      { s with cond := { s.cond with g_io_in := true } }
    else s
  else s

/-- The main body of evd_socket_handle_condition, lines 1364-1453, for a
non-listening socket: the error branch closes; otherwise the write and read
edges are dispatched, each removing its bit from the watched mask before its
condition is handled.  confirm_read models
evd_socket_confirm_read_condition. -/
def evd_socket_handle_condition_core (s : EvdSocketSim) (condition : GIOCondition)
    (confirm_read : Bool) : EvdSocketSim :=
  if condition.g_io_err then evd_socket_close_model s
  else if s.status ≠ .closed then
    let sa :=
      if condition.g_io_out then
        evd_socket_handle_out_condition (evd_socket_unwatch_out s)
      else s
    if condition.g_io_in then
      evd_socket_handle_in_condition (evd_socket_unwatch_in sa)
        condition.g_io_hup confirm_read
    else sa
  else s

/-- The trailing hangup block of evd_socket_handle_condition, lines
1455-1477: while reads are still possible the close is deferred (arming the
read timeout source), otherwise the socket closes outright.  read_pending
models the READ_PENDING macro. -/
def evd_socket_handle_hup_block (s1 : EvdSocketSim) (hup read_pending : Bool) :
    EvdSocketSim :=
  if hup then
    if s1.read_src_id ≠ 0 ∨ s1.cond.g_io_in = true ∨ read_pending then
      { s1 with delayed_close := true,
                read_src_id := if s1.read_src_id = 0 then 1 else s1.read_src_id }
    else evd_socket_close_model s1
  else s1

/-- evd_socket_handle_condition, lines 1304-1485, for a non-listening
socket: the dispatch body followed by the trailing hangup block. -/
def evd_socket_handle_condition (s : EvdSocketSim) (condition : GIOCondition)
    (confirm_read read_pending : Bool) : EvdSocketSim :=
  evd_socket_handle_hup_block
    (evd_socket_handle_condition_core s condition confirm_read)
    condition.g_io_hup read_pending

/-- The auxiliary invariant justifying the drained postcondition: whenever
the readable bit is watched, the readable condition flag is down.  The
source establishes it at init (watched IN|OUT, cond 0) and, as proved below,
every modelled operation preserves it. -/
def in_watch_excludes_cond (s : EvdSocketSim) : Prop :=
  s.watched_cond.g_io_in = true → s.cond.g_io_in = false

/-- G_PRIORITY_HIGH of GLib. -/
def g_priority_high : Int := -100

/-- The error kinds evd_socket_connect_addr can report. -/
inductive EvdSocketErrorKind where
  | already_active : EvdSocketErrorKind
  | connect_failed : EvdSocketErrorKind
  | watch_failed : EvdSocketErrorKind
deriving DecidableEq, Repr

/-- src/evd/evd-socket.c evd_socket_connect_addr, lines 2045-2114: refuse
unless the socket is Closed (or Bound over UDP); issue the non-blocking
connect (connect_ok false models a hard failure other than pending); watch
G_IO_IN | G_IO_OUT; raise the dispatch priority two steps above high and
enter Connecting.  The function consults no timeout configuration and
creates no timeout source: every GSource id field is returned untouched. -/
def evd_socket_connect_addr (s : EvdSocketSim) (connect_ok watch_ok : Bool) :
    Except EvdSocketErrorKind EvdSocketSim :=
  if s.status ≠ .closed ∧ ¬(s.status = .bound ∧ s.protocol_is_udp) then
    .error .already_active
  else if connect_ok = false then .error .connect_failed
  else if watch_ok = false then .error .watch_failed
  else
    .ok { s with watched_cond := gio_condition_in_out,
                 actual_priority := g_priority_high + 2,
                 status := .connecting }

/-- The signal set registered in evd_socket_class_init
(src/evd/evd-socket.c, the evd_socket_signals enum and the g_signal_new
calls): error, state-changed, close, new-connection. -/
def evd_socket_signal_names : List String :=
  ["error", "state-changed", "close", "new-connection"]

/-- The property set installed in evd_socket_class_init
(src/evd/evd-socket.c, the g_param_spec calls). -/
def evd_socket_property_names : List String :=
  ["socket", "family", "type", "protocol", "group", "priority", "status",
   "tls-autostart", "tls", "tls-active", "input-stream", "output-stream",
   "io-stream-type"]

/-- A fresh GSimpleAsyncResult as created by evd_jsonrpc_call_method before
a response arrives. -/
def c3_fresh_result : GSimpleAsyncResult :=
  { error_set := false, op_res := none, completed := false }

/-! ## Theorems -/

/-- Claim C2, counterexample: with bandwidth 5, 10 bytes already counted
this second, latency 0 and tv_usec = 1, a request of 3 bytes grants 0 and
emits a wait of (1000001 - 1)/1000 + 1 = 1001 ms, while the claim's formula
(microseconds remaining in the second)/1000 + 1 = (1000000 - 1)/1000 + 1
yields 1000 ms. -/
theorem evd_stream_request_wait_counterexample :
    (evd_stream_request 5 0 10 { sec := 0, usec := 1 } { sec := 0, usec := 0 } 3).2
      = 1001 ∧
    ((1000000 - 1) / 1000 + 1 : Nat) = 1000 ∧
    (evd_stream_request 5 0 10 { sec := 0, usec := 1 } { sec := 0, usec := 0 } 3).2
      ≠ (1000000 - 1) / 1000 + 1 := by
  decide

/-- Claim C2 (amended): for a throttle request, when latency > 0 and the
elapsed time (as computed by g_timeval_get_diff_micro) is below latency, the
grant is 0 with wait (latency - elapsed)/1000 ms; otherwise with
bandwidth > 0 the grant is min(size, max(bandwidth - bytes, 0)) and a short
grant emits a wait of (1000001 - tv_usec)/1000 + 1 ms (one more than the
claimed (1000000 - tv_usec)/1000 + 1 when tv_usec is 1 mod 1000) while a
full grant emits 0; with bandwidth = 0 and latency = 0 the full size is
granted with wait 0; and the per-second byte counters reset whenever the
clock crosses a calendar-second boundary. -/
theorem evd_stream_request_spec (bandwidth latency bytes size : Nat)
    (current last : GTimeVal) :
    (0 < latency → g_timeval_get_diff_micro current last < latency →
       evd_stream_request bandwidth latency bytes current last size =
         (0, (latency - g_timeval_get_diff_micro current last) / 1000)) ∧
    (¬(0 < latency ∧ g_timeval_get_diff_micro current last < latency) →
     0 < bandwidth →
       (evd_stream_request bandwidth latency bytes current last size).1 =
         min (((bandwidth : Int) - (bytes : Int)).toNat) size ∧
       ((evd_stream_request bandwidth latency bytes current last size).1 < size →
          (evd_stream_request bandwidth latency bytes current last size).2 =
            (1000001 - current.usec).toNat / 1000 + 1) ∧
       ((evd_stream_request bandwidth latency bytes current last size).1 = size →
          (evd_stream_request bandwidth latency bytes current last size).2 = 0)) ∧
    (bandwidth = 0 → latency = 0 →
       evd_stream_request bandwidth latency bytes current last size = (size, 0)) ∧
    (∀ s now, now.sec ≠ s.current_time.sec →
       (evd_stream_update_current_time s now).bytes_in = 0 ∧
       (evd_stream_update_current_time s now).bytes_out = 0 ∧
       (evd_stream_update_current_time s now).current_time = now) := by
  refine ⟨?_, ?_, ?_, ?_⟩
  · intro hl he
    simp only [evd_stream_request,
      if_pos (show 0 < latency ∧ g_timeval_get_diff_micro current last < latency
                from ⟨hl, he⟩)]
    simp
  · intro hnl hb
    simp only [evd_stream_request, if_neg hnl]
    by_cases hs : 0 < size
    · simp only [if_pos (show 0 < bandwidth ∧ 0 < (size, 0).1 from ⟨hb, hs⟩)]
      refine ⟨trivial, ?_, ?_⟩
      · intro hlt
        rw [if_pos hlt]
      · intro heq
        rw [if_neg (by omega)]
    · have hsz : size = 0 := by omega
      subst hsz
      simp
  · intro hb hl
    subst hb; subst hl
    simp [evd_stream_request]
  · intro s now hsec
    simp [evd_stream_update_current_time, hsec]

/-- Claim C2, witness: a concrete instantiation of the amended throttle
theorem at bandwidth 4, one byte counted, size 10, usec 5. -/
theorem evd_stream_request_spec_witness :
    (evd_stream_request 4 0 1 { sec := 0, usec := 5 } { sec := 0, usec := 0 } 10).1 =
      min (((4 : Int) - (1 : Int)).toNat) 10 ∧
    (evd_stream_request 4 0 1 { sec := 0, usec := 5 } { sec := 0, usec := 0 } 10).2 =
      (1000001 - (5 : Int)).toNat / 1000 + 1 := by
  have h := evd_stream_request_spec 4 0 1 10
    { sec := 0, usec := 5 } { sec := 0, usec := 0 }
  have h2 := h.2.1 (by decide) (by decide)
  exact ⟨h2.1, h2.2.1 (by decide)⟩

/-- Claim C3, counterexample: a response whose result and error members are
both JSON null does not complete the caller with a protocol error, as the
claim requires; the engine completes the callback normally, handing it a
null error value. -/
theorem evd_jsonrpc_both_null_counterexample :
    (evd_jsonrpc_on_method_result [("1", c3_fresh_result)]
        [("id", .jstr "1"), ("result", .jnull), ("error", .jnull)]).1 =
      .completed_response { error_set := false,
                            op_res := some { result := none, error := some .jnull },
                            completed := true } ∧
    rpc_outcome_is_protocol_error
      ((evd_jsonrpc_on_method_result [("1", c3_fresh_result)]
          [("id", .jstr "1"), ("result", .jnull), ("error", .jnull)]).1) = false := by
  exact ⟨rfl, rfl⟩

/-- Claim C3 (amended): when a response arrives whose id matches an outbound
invocation record, the engine removes the record; it completes the caller
with the result value when result is non-null; when result is null it
completes the caller with the error member, even when that member is also
null; and when both members are non-null it sets a protocol error on the
pending async result and reports failure without completing the caller. -/
theorem evd_jsonrpc_on_method_result_spec
    (outMap : List (String × GSimpleAsyncResult)) (msg : List (String × JVal))
    (id : String) (res : GSimpleAsyncResult) (result_node error_node : JVal)
    (hid : json_object_get_member msg "id" = some (.jstr id))
    (hres : json_object_get_member msg "result" = some result_node)
    (herr : json_object_get_member msg "error" = some error_node)
    (hfind : outMap.find? (fun p => p.1 == id) = some (id, res)) :
    (evd_jsonrpc_on_method_result outMap msg).2 =
      outMap.filter (fun p => p.1 != id) ∧
    (json_node_is_null result_node = false → json_node_is_null error_node = false →
       (evd_jsonrpc_on_method_result outMap msg).1 =
         .protocol_error { res with error_set := true }) ∧
    (json_node_is_null result_node = false → json_node_is_null error_node = true →
       (evd_jsonrpc_on_method_result outMap msg).1 =
         .completed_response
           { res with op_res := some { result := some result_node, error := none },
                      completed := true }) ∧
    (json_node_is_null result_node = true →
       (evd_jsonrpc_on_method_result outMap msg).1 =
         .completed_response
           { res with op_res := some { result := none, error := some error_node },
                      completed := true }) := by
  simp only [evd_jsonrpc_on_method_result, hid, hres, herr, hfind,
    Option.some_bind, json_node_get_string, Option.getD_some]
  refine ⟨?_, ?_, ?_, ?_⟩
  · split
    · rfl
    · split <;> rfl
  · intro h1 h2
    simp [h1, h2]
  · intro h1 h2
    simp [h1, h2]
  · intro h1
    simp [h1]

/-- Claim C3, witness: applying the amended response theorem to a concrete
response carrying result 5 and a null error. -/
theorem evd_jsonrpc_on_method_result_spec_witness :
    (evd_jsonrpc_on_method_result [("1", c3_fresh_result)]
        [("id", .jstr "1"), ("result", .jnum 5), ("error", .jnull)]).1 =
      .completed_response
        { c3_fresh_result with
            op_res := some { result := some (.jnum 5), error := none },
            completed := true } ∧
    (evd_jsonrpc_on_method_result [("1", c3_fresh_result)]
        [("id", .jstr "1"), ("result", .jnum 5), ("error", .jnull)]).2 = [] := by
  have h := evd_jsonrpc_on_method_result_spec [("1", c3_fresh_result)]
      [("id", .jstr "1"), ("result", .jnum 5), ("error", .jnull)]
      "1" c3_fresh_result (.jnum 5) .jnull rfl rfl rfl rfl
  exact ⟨h.2.2.1 rfl rfl, h.1⟩

/-- Claim C4, code-bug record: on the inbound notification
with a null id, a method name and array params, the engine of
src/evd/evd-jsonrpc.c takes the TODO branch: it stores nothing in the
inbound invocation map and, contrary to the claim, invokes no method-call
callback at all (in particular not with handle 0), even though a callback is
installed. -/
theorem evd_jsonrpc_notification_ignored :
    evd_jsonrpc_on_method_called { invocation_counter := 0, invocations_in := [] }
        [("id", .jnull), ("method", .jstr "foo"), ("params", .jarr [])] true =
      (.notification_ok, { invocation_counter := 0, invocations_in := [] }, []) := by
  rfl

/-- Helper: after every entry with a key is filtered out of an association
list, a lookup for that key finds nothing. -/
theorem find_none_after_filter_ne (l : List (Nat × JVal)) (k : Nat) :
    (l.filter (fun p => p.1 != k)).find? (fun p => p.1 == k) = none := by
  induction l with
  | nil => rfl
  | cons a t ih =>
    by_cases h : a.1 = k
    · simp [List.filter_cons, h, ih]
    · simp [List.filter_cons, List.find?_cons, h, ih]

/-- Claim C10: responding with an invocation handle absent from the inbound
map fails with an invalid-argument error and attempts no transport write;
for a known handle the inbound entry is removed before the write is
attempted, the call reports the write outcome, and a second respond with the
same handle fails with invalid-argument because the handle has already been
consumed.  The hypotheses scope the claim to real handles (the source
fails the id > 0 g_return_val_if_fail assertion otherwise) and to an engine
with a transport associated. -/
theorem evd_jsonrpc_respond_spec (st : JsonrpcInState) (invocation_id : Nat)
    (result : Option JVal) (context_is_peer has_write_cb write_ok : Bool)
    (hpos : 0 < invocation_id)
    (htransport : context_is_peer = true ∨ has_write_cb = true) :
    (st.invocations_in.find? (fun p => p.1 == invocation_id) = none →
       evd_jsonrpc_respond st invocation_id result context_is_peer has_write_cb
           write_ok =
         { ok := false, err := some .invalid_argument, state := st,
           writes_attempted := [] }) ∧
    (∀ pr, st.invocations_in.find? (fun p => p.1 == invocation_id) = some pr →
       (evd_jsonrpc_respond st invocation_id result context_is_peer has_write_cb
           write_ok).state.invocations_in =
         st.invocations_in.filter (fun p => p.1 != invocation_id) ∧
       (evd_jsonrpc_respond st invocation_id result context_is_peer has_write_cb
           write_ok).ok = write_ok ∧
       evd_jsonrpc_respond
           (evd_jsonrpc_respond st invocation_id result context_is_peer
              has_write_cb write_ok).state
           invocation_id result context_is_peer has_write_cb write_ok =
         { ok := false, err := some .invalid_argument,
           state := (evd_jsonrpc_respond st invocation_id result context_is_peer
              has_write_cb write_ok).state,
           writes_attempted := [] }) := by
  have hz : ¬(invocation_id = 0) := by omega
  have htr : ¬(¬(context_is_peer = true) ∧ ¬(has_write_cb = true)) := by
    rcases htransport with h | h <;> simp [h]
  constructor
  · intro hnone
    simp only [evd_jsonrpc_respond, if_neg hz, if_neg htr, hnone]
  · intro pr hfind
    simp only [evd_jsonrpc_respond, if_neg hz, if_neg htr, hfind]
    refine ⟨?_, ?_, ?_⟩
    · cases write_ok <;> simp
    · cases write_ok <;> simp
    · have hafter :
        ((if write_ok then
            ({ ok := true, err := none,
               state := { st with invocations_in :=
                 st.invocations_in.filter (fun p => p.1 != invocation_id) },
               writes_attempted :=
                 [evd_jsonrpc_build_message false none (some pr.2) result none] } :
              RespondResult)
          else
            { ok := false, err := some .write_failed,
              state := { st with invocations_in :=
                st.invocations_in.filter (fun p => p.1 != invocation_id) },
              writes_attempted :=
                [evd_jsonrpc_build_message false none (some pr.2) result none] }).state
           ).invocations_in =
          st.invocations_in.filter (fun p => p.1 != invocation_id) := by
        cases write_ok <;> rfl
      rw [hafter]
      simp only [evd_jsonrpc_respond, if_neg hz, if_neg htr,
        find_none_after_filter_ne]

/-- Claim C10, witness: the respond theorem applied to a concrete engine
holding handle 1, first for the unknown handle 2, then for handle 1 with a
failing transport write. -/
theorem evd_jsonrpc_respond_spec_witness :
    (evd_jsonrpc_respond { invocation_counter := 1,
                           invocations_in := [(1, .jstr "a")] } 2 none true false
        true =
      { ok := false, err := some .invalid_argument,
        state := { invocation_counter := 1, invocations_in := [(1, .jstr "a")] },
        writes_attempted := [] }) ∧
    ((evd_jsonrpc_respond { invocation_counter := 1,
                            invocations_in := [(1, .jstr "a")] } 1 none true false
        false).state.invocations_in = []) := by
  constructor
  · exact (evd_jsonrpc_respond_spec
      { invocation_counter := 1, invocations_in := [(1, .jstr "a")] } 2 none
      true false true (by decide) (Or.inl rfl)).1 rfl
  · exact ((evd_jsonrpc_respond_spec
      { invocation_counter := 1, invocations_in := [(1, .jstr "a")] } 1 none
      true false false (by decide) (Or.inl rfl)).2 (1, .jstr "a") rfl).1

/-- Helper: evd_reproxy_backend_new_bridge touches only the connecting
counter; both queues, the pool bounds and the idle timeout are unchanged. -/
theorem new_bridge_preserves_queues (s : EvdReproxyBackendState) (cok : Bool) :
    (evd_reproxy_backend_new_bridge s cok).free_bridges = s.free_bridges ∧
    (evd_reproxy_backend_new_bridge s cok).busy_bridges = s.busy_bridges ∧
    (evd_reproxy_backend_new_bridge s cok).min_pool_size = s.min_pool_size ∧
    (evd_reproxy_backend_new_bridge s cok).max_pool_size = s.max_pool_size ∧
    (evd_reproxy_backend_new_bridge s cok).bridge_idle_timeout =
      s.bridge_idle_timeout := by
  unfold evd_reproxy_backend_new_bridge evd_reproxy_backend_connect_bridge
  split_ifs <;> exact ⟨rfl, rfl, rfl, rfl, rfl⟩

/-- Claim C5: when a bridge finishes connecting while a client awaits, a
non-empty free queue makes the new socket go to the free tail while the
oldest free bridge is popped and handed to the client, the handed bridge
joining the busy tail; an empty free queue hands the new socket itself; and
with no client awaiting the new socket is appended to the free queue. -/
theorem evd_reproxy_backend_pairing_spec (s : EvdReproxyBackendState)
    (socket : Nat) (aw2 cok : Bool) :
    (∀ b rest, s.free_bridges = b :: rest →
       (evd_reproxy_backend_bridge_on_connect s socket true aw2 cok).2 = some b ∧
       (evd_reproxy_backend_bridge_on_connect s socket true aw2
           cok).1.free_bridges = rest ++ [socket] ∧
       (evd_reproxy_backend_bridge_on_connect s socket true aw2
           cok).1.busy_bridges = s.busy_bridges ++ [b]) ∧
    (s.free_bridges = [] →
       (evd_reproxy_backend_bridge_on_connect s socket true aw2 cok).2 =
         some socket ∧
       (evd_reproxy_backend_bridge_on_connect s socket true aw2
           cok).1.busy_bridges = s.busy_bridges ++ [socket]) ∧
    ((evd_reproxy_backend_bridge_on_connect s socket false aw2 cok).2 = none ∧
     (evd_reproxy_backend_bridge_on_connect s socket false aw2
         cok).1.free_bridges = s.free_bridges ++ [socket] ∧
     (evd_reproxy_backend_bridge_on_connect s socket false aw2
         cok).1.busy_bridges = s.busy_bridges) := by
  refine ⟨?_, ?_, ?_⟩
  · intro b rest hfree
    simp only [evd_reproxy_backend_bridge_on_connect, hfree]
    split_ifs <;>
      simp [new_bridge_preserves_queues]
  · intro hfree
    simp only [evd_reproxy_backend_bridge_on_connect, hfree]
    split_ifs <;>
      simp [new_bridge_preserves_queues]
  · simp only [evd_reproxy_backend_bridge_on_connect, Bool.false_eq_true,
      if_false]
    split_ifs <;>
      simp [new_bridge_preserves_queues]

/-- Claim C5, witness: the pairing theorem at a pool whose free queue holds
bridges 3 and 4, when socket 7 connects while a client awaits. -/
theorem evd_reproxy_backend_pairing_spec_witness :
    (evd_reproxy_backend_bridge_on_connect
        { min_pool_size := 1, max_pool_size := 5, free_bridges := [3, 4],
          busy_bridges := [9], nr_bridges_connecting := 1,
          bridge_idle_timeout := 60000 } 7 true false true).2 = some 3 ∧
    (evd_reproxy_backend_bridge_on_connect
        { min_pool_size := 1, max_pool_size := 5, free_bridges := [3, 4],
          busy_bridges := [9], nr_bridges_connecting := 1,
          bridge_idle_timeout := 60000 } 7 true false true).1.free_bridges =
      [4, 7] ∧
    (evd_reproxy_backend_bridge_on_connect
        { min_pool_size := 1, max_pool_size := 5, free_bridges := [3, 4],
          busy_bridges := [9], nr_bridges_connecting := 1,
          bridge_idle_timeout := 60000 } 7 true false true).1.busy_bridges =
      [9, 3] := by
  have h := (evd_reproxy_backend_pairing_spec
      { min_pool_size := 1, max_pool_size := 5, free_bridges := [3, 4],
        busy_bridges := [9], nr_bridges_connecting := 1,
        bridge_idle_timeout := 60000 } 7 false true).1 3 [4] rfl
  exact ⟨h.1, h.2.1, h.2.2⟩

/-- Claim C6: the pool invariant |free| + |busy| + connecting ≤ max, together
with (min ≤ total or a connect in flight), holds for a fresh backend and is
preserved by every pool operation: spawning (which is a no-op exactly when
the pool already sits at max), connect completion (which presupposes a
connect in flight) and bridge close with reuse or destruction (for a bridge
sitting in exactly one queue).  connect_ok true reflects the source's
success path of evd_socket_connect_to; min ≤ max holds for the only sizes
the source ever installs (the defaults 1 and 5). -/
theorem evd_reproxy_backend_pool_sizing_spec :
    pool_invariant (evd_reproxy_backend_new true) ∧
    (∀ s cok, evd_reproxy_backend_count_all_bridges s = s.max_pool_size →
       evd_reproxy_backend_new_bridge s cok = s) ∧
    (∀ s cok, s.min_pool_size ≤ s.max_pool_size → pool_invariant s →
       pool_invariant (evd_reproxy_backend_new_bridge s cok)) ∧
    (∀ s socket aw aw2, s.min_pool_size ≤ s.max_pool_size →
       0 < s.nr_bridges_connecting → pool_invariant s →
       pool_invariant
         (evd_reproxy_backend_bridge_on_connect s socket aw aw2 true).1) ∧
    (∀ s bridge aw, s.min_pool_size ≤ s.max_pool_size →
       ((bridge ∈ s.free_bridges ∧ bridge ∉ s.busy_bridges) ∨
        (bridge ∉ s.free_bridges ∧ bridge ∈ s.busy_bridges)) →
       pool_invariant s →
       pool_invariant (evd_reproxy_backend_bridge_closed s bridge aw true)) := by
  have hcb : ∀ t : EvdReproxyBackendState,
      evd_reproxy_backend_connect_bridge t true =
        { t with nr_bridges_connecting := t.nr_bridges_connecting + 1 } :=
    fun t => rfl
  have hnb : ∀ t : EvdReproxyBackendState,
      evd_reproxy_backend_new_bridge t true =
        if t.max_pool_size ≤ evd_reproxy_backend_count_all_bridges t then t
        else { t with nr_bridges_connecting := t.nr_bridges_connecting + 1 } := by
    intro t
    unfold evd_reproxy_backend_new_bridge
    split_ifs <;> rfl
  have hgrow : ∀ (t : EvdReproxyBackendState) (g : Prop) (inst : Decidable g),
      t.min_pool_size ≤ t.max_pool_size →
      evd_reproxy_backend_count_all_bridges t ≤ t.max_pool_size →
      (¬g → t.min_pool_size ≤ evd_reproxy_backend_count_all_bridges t) →
      pool_invariant (if g then evd_reproxy_backend_new_bridge t true else t) := by
    intro t g inst hmm hle hng
    split_ifs with hg
    · rw [hnb]
      split_ifs with h1
      · exact ⟨hle, Or.inl (le_trans hmm h1)⟩
      · constructor
        · simp only [evd_reproxy_backend_count_all_bridges] at *
          omega
        · exact Or.inr (Nat.succ_pos _)
    · exact ⟨hle, Or.inl (hng hg)⟩
  refine ⟨by simp only [pool_invariant]; decide, ?_, ?_, ?_, ?_⟩
  · intro s cok h
    unfold evd_reproxy_backend_new_bridge
    rw [if_pos (le_of_eq h.symm)]
  · intro s cok hmm hinv
    obtain ⟨ha, hb⟩ := hinv
    unfold evd_reproxy_backend_new_bridge evd_reproxy_backend_connect_bridge
    split_ifs with h1 h2
    · exact ⟨ha, hb⟩
    · constructor
      · simp only [evd_reproxy_backend_count_all_bridges] at *
        omega
      · right
        simp
    · exact ⟨ha, hb⟩
  · intro s socket aw aw2 hmm hc hinv
    obtain ⟨ha, hb⟩ := hinv
    simp only [evd_reproxy_backend_count_all_bridges] at ha hb
    cases aw with
    | true =>
      cases hfree : s.free_bridges with
      | nil =>
        rw [hfree, List.length_nil] at ha hb
        simp only [evd_reproxy_backend_bridge_on_connect, hfree,
          eq_self_iff_true, if_true]
        apply hgrow
        · exact hmm
        · simp only [evd_reproxy_backend_count_all_bridges, List.length_nil,
            List.length_append, List.length_cons]
          omega
        · intro hg
          rw [not_or] at hg
          have h2 := hg.2
          simp only [evd_reproxy_backend_count_free_bridges, List.length_nil,
            evd_reproxy_backend_count_all_bridges, List.length_append,
            List.length_cons, not_lt] at h2 ⊢
          omega
      | cons b rest =>
        rw [hfree, List.length_cons] at ha hb
        simp only [evd_reproxy_backend_bridge_on_connect, hfree,
          eq_self_iff_true, if_true]
        apply hgrow
        · exact hmm
        · simp only [evd_reproxy_backend_count_all_bridges,
            List.length_append, List.length_cons, List.length_nil]
          omega
        · intro hg
          rw [not_or] at hg
          have h2 := hg.2
          simp only [evd_reproxy_backend_count_free_bridges,
            evd_reproxy_backend_count_all_bridges, List.length_append,
            List.length_cons, List.length_nil, not_lt] at h2 ⊢
          omega
    | false =>
      simp only [evd_reproxy_backend_bridge_on_connect, Bool.false_eq_true,
        if_false]
      apply hgrow
      · exact hmm
      · simp only [evd_reproxy_backend_count_all_bridges,
          List.length_append, List.length_cons, List.length_nil]
        omega
      · intro hg
        rw [not_or] at hg
        have h2 := hg.2
        simp only [evd_reproxy_backend_count_free_bridges,
          evd_reproxy_backend_count_all_bridges, List.length_append,
          List.length_cons, List.length_nil, not_lt] at h2 ⊢
        omega
  · intro s bridge aw hmm hmem hinv
    obtain ⟨ha, hb⟩ := hinv
    simp only [evd_reproxy_backend_count_all_bridges] at ha hb
    rcases hmem with ⟨hf, hb2⟩ | ⟨hf, hb2⟩
    · have e1 : (s.free_bridges.erase bridge).length = s.free_bridges.length - 1 :=
        List.length_erase_of_mem hf
      have e2 : s.busy_bridges.erase bridge = s.busy_bridges :=
        List.erase_of_not_mem hb2
      have e3 : 0 < s.free_bridges.length := List.length_pos_of_mem hf
      simp only [evd_reproxy_backend_bridge_closed, hcb]
      split_ifs with hg
      · refine ⟨?_, Or.inr (by simp)⟩
        simp only [evd_reproxy_backend_count_all_bridges, e1, e2]
        omega
      · rw [not_or] at hg
        have h2 := hg.2
        simp only [evd_reproxy_backend_count_all_bridges, e1, e2, not_lt] at h2
        refine ⟨?_, Or.inl ?_⟩ <;>
          simp only [evd_reproxy_backend_count_all_bridges, e1, e2] <;> omega
    · have e1 : (s.busy_bridges.erase bridge).length = s.busy_bridges.length - 1 :=
        List.length_erase_of_mem hb2
      have e2 : s.free_bridges.erase bridge = s.free_bridges :=
        List.erase_of_not_mem hf
      have e3 : 0 < s.busy_bridges.length := List.length_pos_of_mem hb2
      simp only [evd_reproxy_backend_bridge_closed, hcb]
      split_ifs with hg
      · refine ⟨?_, Or.inr (by simp)⟩
        simp only [evd_reproxy_backend_count_all_bridges, e1, e2]
        omega
      · rw [not_or] at hg
        have h2 := hg.2
        simp only [evd_reproxy_backend_count_all_bridges, e1, e2, not_lt] at h2
        refine ⟨?_, Or.inl ?_⟩ <;>
          simp only [evd_reproxy_backend_count_all_bridges, e1, e2] <;> omega

/-- Claim C6, witness: the sizing theorem applied to a concrete saturated
pool (total = max = 5, so spawning is refused) and to a concrete close of
busy bridge 9 in a pool at the minimum. -/
theorem evd_reproxy_backend_pool_sizing_spec_witness :
    evd_reproxy_backend_new_bridge
        { min_pool_size := 1, max_pool_size := 5, free_bridges := [3, 4],
          busy_bridges := [9, 10], nr_bridges_connecting := 1,
          bridge_idle_timeout := 60000 } true =
      { min_pool_size := 1, max_pool_size := 5, free_bridges := [3, 4],
        busy_bridges := [9, 10], nr_bridges_connecting := 1,
        bridge_idle_timeout := 60000 } ∧
    pool_invariant
      (evd_reproxy_backend_bridge_closed
        { min_pool_size := 1, max_pool_size := 5, free_bridges := [],
          busy_bridges := [9], nr_bridges_connecting := 0,
          bridge_idle_timeout := 60000 } 9 false true) := by
  constructor
  · exact evd_reproxy_backend_pool_sizing_spec.2.1
      { min_pool_size := 1, max_pool_size := 5, free_bridges := [3, 4],
        busy_bridges := [9, 10], nr_bridges_connecting := 1,
        bridge_idle_timeout := 60000 } true (by decide)
  · exact evd_reproxy_backend_pool_sizing_spec.2.2.2.2
      { min_pool_size := 1, max_pool_size := 5, free_bridges := [],
        busy_bridges := [9], nr_bridges_connecting := 0,
        bridge_idle_timeout := 60000 } 9 false (by decide)
      (Or.inr (by decide)) (by simp only [pool_invariant]; decide)

/-- Claim C7: the pool idle timeout starts at 60 seconds (60000 ms); a
bridge error lowers it to the minimum of the current timeout and the erroring
bridge's inactivity and then closes every free bridge whose inactivity
exceeds the new timeout (the source closes at >=, a superset of the claimed
strict excess); an activity notification raises it to the maximum of the
current timeout and the observed inactivity. -/
theorem evd_reproxy_backend_idle_timeout_spec :
    evd_reproxy_backend_init_state.bridge_idle_timeout = 60 * 1000 ∧
    (∀ s inactive bridge,
       (evd_reproxy_backend_bridge_on_error s inactive bridge).1.bridge_idle_timeout
         = min s.bridge_idle_timeout (inactive bridge)) ∧
    (∀ s inactive bridge b, b ∈ s.free_bridges →
       min s.bridge_idle_timeout (inactive bridge) < inactive b →
       b ∈ (evd_reproxy_backend_bridge_on_error s inactive bridge).2) ∧
    (∀ s inactive bridge,
       (evd_reproxy_backend_notify_bridge_activity s inactive
           bridge).bridge_idle_timeout
         = max s.bridge_idle_timeout (inactive bridge)) := by
  refine ⟨rfl, fun s inactive bridge => rfl, ?_, fun s inactive bridge => rfl⟩
  intro s inactive bridge b hmem hlt
  simp only [evd_reproxy_backend_bridge_on_error, List.mem_filter]
  exact ⟨hmem, by
    simp only [evd_reproxy_backend_check_inactive_bridge, decide_eq_true_eq]
    omega⟩

/-- Claim C7, witness: the idle-timeout theorem applied to a pool at the
default 60000 ms with free bridges 3 and 4, where bridge 9 errors at 3050 ms
of inactivity and bridge 4 has been inactive 5000 ms. -/
theorem evd_reproxy_backend_idle_timeout_spec_witness :
    (evd_reproxy_backend_bridge_on_error
        { min_pool_size := 1, max_pool_size := 5, free_bridges := [3, 4],
          busy_bridges := [], nr_bridges_connecting := 0,
          bridge_idle_timeout := 60000 }
        (fun b => if b = 9 then 3050 else if b = 4 then 5000 else 10)
        9).1.bridge_idle_timeout = min 60000 3050 ∧
    4 ∈ (evd_reproxy_backend_bridge_on_error
        { min_pool_size := 1, max_pool_size := 5, free_bridges := [3, 4],
          busy_bridges := [], nr_bridges_connecting := 0,
          bridge_idle_timeout := 60000 }
        (fun b => if b = 9 then 3050 else if b = 4 then 5000 else 10) 9).2 := by
  constructor
  · exact evd_reproxy_backend_idle_timeout_spec.2.1
      { min_pool_size := 1, max_pool_size := 5, free_bridges := [3, 4],
        busy_bridges := [], nr_bridges_connecting := 0,
        bridge_idle_timeout := 60000 }
      (fun b => if b = 9 then 3050 else if b = 4 then 5000 else 10) 9
  · exact evd_reproxy_backend_idle_timeout_spec.2.2.1
      { min_pool_size := 1, max_pool_size := 5, free_bridges := [3, 4],
        busy_bridges := [], nr_bridges_connecting := 0,
        bridge_idle_timeout := 60000 }
      (fun b => if b = 9 then 3050 else if b = 4 then 5000 else 10) 9 4
      (by decide) (by decide)

/-- Claim C9: a transport send returns success when the transport delivers
immediately; when immediate delivery fails and the backlog has room, the
frame is appended to the peer's backlog and the send still returns success;
the send fails only when immediate delivery failed and the bounded backlog
is full. -/
theorem evd_transport_send_spec (p : EvdPeerState) (frame : List Nat) :
    evd_transport_send true p frame = (true, p) ∧
    (p.backlog.length < p.backlog_max →
       evd_transport_send false p frame =
         (true, { p with backlog := p.backlog ++ [frame] })) ∧
    (¬p.backlog.length < p.backlog_max →
       evd_transport_send false p frame = (false, p)) := by
  refine ⟨rfl, ?_, ?_⟩
  · intro h
    simp [evd_transport_send, evd_peer_backlog_push_frame, h]
  · intro h
    simp [evd_transport_send, evd_peer_backlog_push_frame, h]

/-- Claim C9, witness: the send theorem at a peer whose backlog of bound 2
holds one frame, sending frame [1, 2] without immediate delivery. -/
theorem evd_transport_send_spec_witness :
    evd_transport_send false { backlog := [[7]], backlog_max := 2 } [1, 2] =
      (true, { backlog := [[7], [1, 2]], backlog_max := 2 }) ∧
    evd_transport_send false { backlog := [[7], [8]], backlog_max := 2 } [1, 2] =
      (false, { backlog := [[7], [8]], backlog_max := 2 }) := by
  constructor
  · exact (evd_transport_send_spec { backlog := [[7]], backlog_max := 2 }
      [1, 2]).2.1 (by decide)
  · exact (evd_transport_send_spec { backlog := [[7], [8]], backlog_max := 2 }
      [1, 2]).2.2 (by decide)

/-- Helper: closing leaves both condition masks untouched (only the status
changes). -/
theorem evd_socket_close_model_masks (t : EvdSocketSim) :
    (evd_socket_close_model t).watched_cond = t.watched_cond ∧
    (evd_socket_close_model t).cond = t.cond := by
  unfold evd_socket_close_model
  split <;> exact ⟨rfl, rfl⟩

/-- Helper: the write-condition body never writes the watched mask and never
touches the readable condition flag. -/
theorem evd_socket_handle_out_fields (t : EvdSocketSim) :
    (evd_socket_handle_out_condition t).watched_cond = t.watched_cond ∧
    (evd_socket_handle_out_condition t).cond.g_io_in = t.cond.g_io_in := by
  simp only [evd_socket_handle_out_condition]
  split_ifs <;> exact ⟨rfl, rfl⟩

/-- Helper: the read-condition body never writes the watched mask. -/
theorem evd_socket_handle_in_fields (t : EvdSocketSim) (a b : Bool) :
    (evd_socket_handle_in_condition t a b).watched_cond = t.watched_cond := by
  simp only [evd_socket_handle_in_condition]
  split_ifs <;> rfl

/-- Helper: the trailing hangup block leaves both condition masks
untouched. -/
theorem evd_socket_hup_block_masks (t : EvdSocketSim) (hb r : Bool) :
    (evd_socket_handle_hup_block t hb r).watched_cond = t.watched_cond ∧
    (evd_socket_handle_hup_block t hb r).cond = t.cond := by
  unfold evd_socket_handle_hup_block
  split
  · split
    · exact ⟨rfl, rfl⟩
    · exact evd_socket_close_model_masks t
  · exact ⟨rfl, rfl⟩

/-- Helper: the dispatch body only ever clears bits of the watched mask, so
its error and hangup bits are exactly those of the incoming state. -/
theorem evd_socket_core_watched_err_hup (s : EvdSocketSim) (c : GIOCondition)
    (cr : Bool) :
    (evd_socket_handle_condition_core s c cr).watched_cond.g_io_err =
      s.watched_cond.g_io_err ∧
    (evd_socket_handle_condition_core s c cr).watched_cond.g_io_hup =
      s.watched_cond.g_io_hup := by
  simp only [evd_socket_handle_condition_core]
  split
  · rw [(evd_socket_close_model_masks s).1]
    exact ⟨rfl, rfl⟩
  · split
    · split
      · rw [evd_socket_handle_in_fields]
        simp only [evd_socket_unwatch_in]
        split
        · rw [(evd_socket_handle_out_fields _).1]
          simp [evd_socket_unwatch_out]
        · exact ⟨rfl, rfl⟩
      · split
        · rw [(evd_socket_handle_out_fields _).1]
          simp [evd_socket_unwatch_out]
        · exact ⟨rfl, rfl⟩
    · exact ⟨rfl, rfl⟩

/-- Helper: the dispatch body preserves the auxiliary invariant that a
watched readable bit comes with a clear readable condition flag. -/
theorem evd_socket_core_in_watch (s : EvdSocketSim) (c : GIOCondition)
    (cr : Bool) (h : in_watch_excludes_cond s) :
    in_watch_excludes_cond (evd_socket_handle_condition_core s c cr) := by
  unfold in_watch_excludes_cond at h ⊢
  simp only [evd_socket_handle_condition_core]
  split
  · rw [(evd_socket_close_model_masks s).1, (evd_socket_close_model_masks s).2]
    exact h
  · split
    · split
      · rw [evd_socket_handle_in_fields]
        simp only [evd_socket_unwatch_in]
        intro hx
        exact absurd hx (by simp)
      · split
        · rw [(evd_socket_handle_out_fields _).1,
            (evd_socket_handle_out_fields _).2]
          simp only [evd_socket_unwatch_out]
          exact h
        · exact h
    · exact h

/-- Helper: the trailing hangup block preserves the auxiliary invariant. -/
theorem evd_socket_hup_block_in_watch (t : EvdSocketSim) (hb r : Bool)
    (h : in_watch_excludes_cond t) :
    in_watch_excludes_cond (evd_socket_handle_hup_block t hb r) := by
  unfold in_watch_excludes_cond at h ⊢
  rw [(evd_socket_hup_block_masks t hb r).1, (evd_socket_hup_block_masks t hb r).2]
  exact h

/-- Helper: the auxiliary invariant (a watched readable bit implies a clear
readable condition flag) is preserved by every modelled socket operation, so
the hypothesis of the drained postcondition below holds in every reachable
state (the source establishes it at init with watched IN|OUT and cond 0). -/
theorem in_watch_excludes_cond_preserved :
    (∀ s, in_watch_excludes_cond s →
       in_watch_excludes_cond (evd_socket_input_stream_drained s)) ∧
    (∀ s, in_watch_excludes_cond s →
       in_watch_excludes_cond (evd_socket_output_stream_filled s)) ∧
    (∀ s c cr rp, in_watch_excludes_cond s →
       in_watch_excludes_cond (evd_socket_handle_condition s c cr rp)) := by
  refine ⟨?_, ?_, ?_⟩
  · intro s h
    unfold evd_socket_input_stream_drained
    split_ifs <;> simp_all [in_watch_excludes_cond]
  · intro s h
    unfold evd_socket_output_stream_filled
    simp_all [in_watch_excludes_cond]
  · intro s c cr rp h
    exact evd_socket_hup_block_in_watch _ _ _ (evd_socket_core_in_watch s c cr h)

/-- Claim C1: the watched mask stays inside the readable and writable bits
under every modelled operation; an input-stack drained notification with no
deferred close pending leaves the readable bit watched and the readable
condition flag clear (using the invariant that a watched readable bit comes
with a clear flag); an output-stack filled notification leaves the writable
bit watched and the writable condition flag clear; and a dispatched
readiness edge removes its bit from the watched mask before the condition is
handled: the unwatch phases clear the bit, and for a non-closed socket
without an error condition the handler factors exactly through them. -/
theorem evd_socket_condition_mask_spec :
    (∀ s, gio_subset_read_write s.watched_cond →
       gio_subset_read_write (evd_socket_input_stream_drained s).watched_cond) ∧
    (∀ s, gio_subset_read_write s.watched_cond →
       gio_subset_read_write (evd_socket_output_stream_filled s).watched_cond) ∧
    (∀ s c cr rp, gio_subset_read_write s.watched_cond →
       gio_subset_read_write
         (evd_socket_handle_condition s c cr rp).watched_cond) ∧
    (∀ s, s.delayed_close = false → in_watch_excludes_cond s →
       (evd_socket_input_stream_drained s).watched_cond.g_io_in = true ∧
       (evd_socket_input_stream_drained s).cond.g_io_in = false) ∧
    (∀ s, (evd_socket_output_stream_filled s).watched_cond.g_io_out = true ∧
          (evd_socket_output_stream_filled s).cond.g_io_out = false) ∧
    (∀ s, (evd_socket_unwatch_out s).watched_cond.g_io_out = false ∧
          (evd_socket_unwatch_in s).watched_cond.g_io_in = false) ∧
    (∀ s c cr rp, c.g_io_err = false → s.status ≠ .closed →
       evd_socket_handle_condition s c cr rp =
         evd_socket_handle_hup_block
           (let sa :=
              if c.g_io_out then
                evd_socket_handle_out_condition (evd_socket_unwatch_out s)
              else s
            if c.g_io_in then
              evd_socket_handle_in_condition (evd_socket_unwatch_in sa)
                c.g_io_hup cr
            else sa)
           c.g_io_hup rp) := by
  refine ⟨?_, ?_, ?_, ?_, ?_, ?_, ?_⟩
  · intro s h
    unfold evd_socket_input_stream_drained
    split_ifs <;> simp_all [gio_subset_read_write]
  · intro s h
    unfold evd_socket_output_stream_filled
    simp_all [gio_subset_read_write]
  · intro s c cr rp h
    obtain ⟨h1, h2⟩ := h
    unfold gio_subset_read_write evd_socket_handle_condition
    rw [(evd_socket_hup_block_masks _ _ _).1,
      (evd_socket_core_watched_err_hup s c cr).1,
      (evd_socket_core_watched_err_hup s c cr).2]
    exact ⟨h1, h2⟩
  · intro s hdc hinv
    simp only [evd_socket_input_stream_drained, hdc, Bool.false_eq_true,
      if_false]
    split_ifs with hw
    · exact ⟨rfl, rfl⟩
    · have hw2 : s.watched_cond.g_io_in = true := by
        cases hvalue : s.watched_cond.g_io_in
        · exact absurd hvalue hw
        · rfl
      exact ⟨hw2, hinv hw2⟩
  · exact fun s => ⟨rfl, rfl⟩
  · exact fun s => ⟨rfl, rfl⟩
  · intro s c cr rp herr hstat
    unfold evd_socket_handle_condition evd_socket_handle_condition_core
    rw [herr]
    simp only [Bool.false_eq_true, if_false, if_pos hstat]

/-- Claim C1, witness: the mask theorem applied to a connected socket that is
watching neither bit with both condition flags raised (the state right after
both edges were dispatched), for a drained notification, a filled
notification and a plain readable dispatch. -/
theorem evd_socket_condition_mask_spec_witness :
    gio_subset_read_write
      (evd_socket_input_stream_drained
        { status := .connected,
          cond := { g_io_in := true, g_io_out := true, g_io_err := false,
                    g_io_hup := false },
          watched_cond := gio_condition_none, delayed_close := false,
          tls_enabled := false, protocol_is_udp := false, read_src_id := 0,
          write_src_id := 0, close_src_id := 0, priority := 0,
          actual_priority := 0 }).watched_cond ∧
    (evd_socket_input_stream_drained
        { status := .connected,
          cond := { g_io_in := true, g_io_out := true, g_io_err := false,
                    g_io_hup := false },
          watched_cond := gio_condition_none, delayed_close := false,
          tls_enabled := false, protocol_is_udp := false, read_src_id := 0,
          write_src_id := 0, close_src_id := 0, priority := 0,
          actual_priority := 0 }).watched_cond.g_io_in = true ∧
    (evd_socket_input_stream_drained
        { status := .connected,
          cond := { g_io_in := true, g_io_out := true, g_io_err := false,
                    g_io_hup := false },
          watched_cond := gio_condition_none, delayed_close := false,
          tls_enabled := false, protocol_is_udp := false, read_src_id := 0,
          write_src_id := 0, close_src_id := 0, priority := 0,
          actual_priority := 0 }).cond.g_io_in = false := by
  have hsub := evd_socket_condition_mask_spec.1
      { status := .connected,
        cond := { g_io_in := true, g_io_out := true, g_io_err := false,
                  g_io_hup := false },
        watched_cond := gio_condition_none, delayed_close := false,
        tls_enabled := false, protocol_is_udp := false, read_src_id := 0,
        write_src_id := 0, close_src_id := 0, priority := 0,
        actual_priority := 0 }
      (by simp only [gio_subset_read_write]; exact ⟨rfl, rfl⟩)
  have hpost := evd_socket_condition_mask_spec.2.2.2.1
      { status := .connected,
        cond := { g_io_in := true, g_io_out := true, g_io_err := false,
                  g_io_hup := false },
        watched_cond := gio_condition_none, delayed_close := false,
        tls_enabled := false, protocol_is_udp := false, read_src_id := 0,
        write_src_id := 0, close_src_id := 0, priority := 0,
        actual_priority := 0 }
      rfl (by intro h; exact absurd h (by decide))
  exact ⟨hsub, hpost.1, hpost.2⟩

/-- Claim C8, code-bug record: evd_socket_connect_addr on a closed socket
succeeds into Connecting while leaving every GSource id untouched: no
connect timer is armed, no timeout configuration is consulted, and the
EvdSocket class registers neither a connect-timeout signal nor a
connect-timeout property, even though the function's own documentation
promises a connect-timeout abort and its signaling. -/
theorem evd_socket_connect_timeout_missing :
    evd_socket_connect_addr
        { status := .closed, cond := gio_condition_none,
          watched_cond := gio_condition_none, delayed_close := false,
          tls_enabled := false, protocol_is_udp := false, read_src_id := 0,
          write_src_id := 0, close_src_id := 0, priority := 0,
          actual_priority := 0 } true true =
      .ok { status := .connecting, cond := gio_condition_none,
            watched_cond := gio_condition_in_out, delayed_close := false,
            tls_enabled := false, protocol_is_udp := false, read_src_id := 0,
            write_src_id := 0, close_src_id := 0, priority := 0,
            actual_priority := g_priority_high + 2 } ∧
    ¬("connect-timeout" ∈ evd_socket_signal_names) ∧
    ¬("connect-timeout" ∈ evd_socket_property_names) := by
  refine ⟨rfl, by decide, by decide⟩

end EventDance
